import Mathlib

/-!
Shallow embedding of the `dlog` ledger core.

Sources embedded here:
  * `corelib/src/lib.rs` — `UniverseState` (balance map, `balance_of`,
    `set_balance`, `apply_transfer`, `fold_snapshot`, `encode_master_root`).
  * `api/src/main.rs` — `UniverseInner` (`block_height`, `tick_once`).
  * `dlog_gold_http/src/omega.rs` — `InfinityBank` (`balance_of`,
    `handle_transfer`, `accrue_interest`).

Rust `HashMap` values are modelled as association lists (`AssocMap`): a list
of key/value pairs where `insert` replaces the first matching key (or appends
when absent) and `lookup` returns the first match.  Unsigned machine integers
are modelled as `Nat`; where the source's arithmetic can wrap — the plain
`+ 1` on a `u64` height and the `u128` multiply inside the interest loop —
the model reduces modulo `2 ^ 64` resp. `2 ^ 128` (release-mode wrapping
semantics), and saturating operations are modelled with `min`.
-/

namespace Dlog

/-! ## Association-list model of Rust's `HashMap` -/

namespace AssocMap

/-- First value stored under key `l`, mirroring `HashMap::get`. -/
def lookup {α β : Type} [DecidableEq α] : List (α × β) → α → Option β
  | [], _ => none
  | (k, v) :: rest, l => if k = l then some v else lookup rest l

/-- Store `v` under key `l`, mirroring `HashMap::insert`: the first matching
entry is replaced; a missing key is appended. -/
def insert {α β : Type} [DecidableEq α] (l : α) (v : β) : List (α × β) → List (α × β)
  | [] => [(l, v)]
  | (k, w) :: rest => if k = l then (l, v) :: rest else (k, w) :: insert l v rest

/-- Sum of a `Nat` valuation of all stored values. -/
def sumVal {α β : Type} (g : β → Nat) (m : List (α × β)) : Nat :=
  (m.map fun kv => g kv.2).sum

end AssocMap

/-- Follows the claim's words, for comparison with the code's arithmetic:
"rounding each resulting balance to the nearest integer unit" — division of
`n` by `d` with the quotient rounded to the nearest integer, halves up. -/
def roundNearestHalfUp (n d : Nat) : Nat := (n + d / 2) / d

/-! ## Types of the `spec` crate used by `corelib`

The `spec` crate revision that `corelib/src/lib.rs` imports (`LabelId`,
`Balance`, `TransferTx`, `SpecError`, `UniverseSnapshot`) is not part of the
checked-out sources; its shapes are pinned by the spec (§3, §7) and by how
`corelib` uses them. -/

/-- Modelled from the spec: an account identifier is a compound key of two
opaque strings (spec §3, "Account Identifier"; the sibling `spec` crate
variant calls it `Address \x7b phone, label \x7d`). Equality is structural. -/
structure LabelId where
  phone : String
  label : String
deriving DecidableEq, Repr

/-- Modelled from the spec: a balance is a non-negative integer amount,
"arbitrary-precision (or at least 128-bit) unsigned" (spec §3), so the
amount is a `Nat`. `corelib` reads and writes the single `amount` field. -/
structure Balance where
  amount : Nat
deriving DecidableEq, Repr

/-- Modelled from the spec: a transfer transaction carries the sender, the
receiver and the amount, as used by `UniverseState::apply_transfer`
(`tx.from`, `tx.to`, `tx.amount`).  `from` is a Lean keyword, so the field
is called `tfrom` here. -/
structure TransferTx where
  tfrom : LabelId
  tto : LabelId
  amount : Nat
deriving DecidableEq, Repr

/-- Modelled from the spec: the ledger-local error taxonomy (spec §7);
`corelib` constructs `InvalidAmount`, `InsufficientBalance` and
`Generic(String)`. -/
inductive SpecError where
  | InvalidAmount
  | InsufficientBalance
  | Generic (msg : String)
deriving DecidableEq, Repr

/-- Modelled from the spec: the snapshot record produced by
`UniverseState::fold_snapshot`, with fields `height`, `master_root`,
`timestamp_ms` exactly as `corelib` constructs it.  `height` is a `u64`
(`BlockHeight = u64` in the `spec` crate), kept below `2 ^ 64` here. -/
structure UniverseSnapshot where
  height : Nat
  master_root : String
  timestamp_ms : Int
deriving DecidableEq, Repr

/-! ## `corelib/src/lib.rs` — `UniverseState` -/

/-- `UniverseState` from `corelib/src/lib.rs`, restricted to the fields the
ledger operations touch (`balances`, `last_snapshot`); the unrelated
`land_locks` and `mc_players` registries are omitted.  The `HashMap` of
balances is modelled as an association list. -/
structure UniverseState where
  balances : List (LabelId × Balance)
  last_snapshot : Option UniverseSnapshot
deriving DecidableEq, Repr

namespace UniverseState

/-- `UniverseState::new`: empty balance map, no snapshot yet. -/
def new : UniverseState := { balances := [], last_snapshot := none }

/-- `UniverseState::balance_of`: stored balance, or zero if absent. -/
def balance_of (s : UniverseState) (l : LabelId) : Balance :=
  (AssocMap.lookup s.balances l).getD { amount := 0 }

/-- `UniverseState::set_balance`: overwrite (or create) a label's balance. -/
def set_balance (s : UniverseState) (l : LabelId) (b : Balance) : UniverseState :=
  { s with balances := AssocMap.insert l b s.balances }

/-- `UniverseState::apply_transfer`.  Mirrors the Rust body line by line:
reject zero amounts, reject an insufficient sender balance, otherwise read
both balances from the pre-state and write the debited sender followed by
the credited receiver.  The Rust signature `(&mut self, tx) ->
Result<(), SpecError>` becomes state passing: the result is the returned
`Result` paired with the post-state (on the error paths nothing has been
written, so the post-state is the input state). -/
def apply_transfer (s : UniverseState) (tx : TransferTx) :
    Except SpecError Unit × UniverseState :=
  if tx.amount = 0 then
    (Except.error SpecError.InvalidAmount, s)
  else
    let from_balance := s.balance_of tx.tfrom
    if from_balance.amount < tx.amount then
      (Except.error SpecError.InsufficientBalance, s)
    else
      let to_balance := s.balance_of tx.tto
      let new_from : Balance := { amount := from_balance.amount - tx.amount }
      let new_to : Balance := { amount := to_balance.amount + tx.amount }
      (Except.ok (), ((s.set_balance tx.tfrom new_from).set_balance tx.tto new_to))

/-- `UniverseState::encode_master_root`: the 9∞-style master root string,
`;∞;∞;∞;∞;∞;∞;∞;∞;∞;height;<H>;time;<T>;`. -/
def encode_master_root (height : Nat) (timestamp_ms : Int) : String :=
  ";∞;∞;∞;∞;∞;∞;∞;∞;∞;height;" ++ toString height ++ ";time;" ++
    toString timestamp_ms ++ ";"

/-- `UniverseState::fold_snapshot`.  The new height is `last height + 1`
(or `0` for the very first snapshot); the `u64` increment is modelled
modulo `2 ^ 64`.  The wall-clock reading `current_timestamp_ms()` is passed
in as the `timestamp_ms` argument.  Returns the snapshot together with the
post-state, whose `last_snapshot` caches it. -/
def fold_snapshot (s : UniverseState) (timestamp_ms : Int) :
    UniverseSnapshot × UniverseState :=
  let new_height : Nat :=
    match s.last_snapshot with
    | some p => (p.height + 1) % 2 ^ 64
    | none => 0
  let master_root := encode_master_root new_height timestamp_ms
  let snapshot : UniverseSnapshot :=
    { height := new_height, master_root := master_root, timestamp_ms := timestamp_ms }
  (snapshot, { s with last_snapshot := some snapshot })

end UniverseState

/-! ## `api/src/main.rs` — `UniverseInner` -/

/-- Largest `u64` value, at which `saturating_add` pins. -/
def U64_MAX : Nat := 2 ^ 64 - 1

/-- `UniverseInner` from `api/src/main.rs`, restricted to `block_height`
(a `u64`); the other fields are static flavor-rule records never touched by
`tick_once`. -/
structure UniverseInner where
  block_height : Nat
deriving DecidableEq, Repr

namespace UniverseInner

/-- `UniverseInner::new`: `block_height: 0`. -/
def new : UniverseInner := { block_height := 0 }

/-- `UniverseInner::tick_once`: `block_height.saturating_add(1)`. -/
def tick_once (u : UniverseInner) : UniverseInner :=
  { block_height := min (u.block_height + 1) U64_MAX }

end UniverseInner

/-! ## `dlog_gold_http/src/omega.rs` — `InfinityBank`

The bank's ledger is a `HashMap<String, u128>`; balances are modelled as
`Nat`.  The two mutexes (`ledger`, `last_tick_ms`) serialize access and are
dropped in this sequential model; `now_ms()` readings are passed in. -/

namespace InfinityBank

/-- `InfinityBank::phi_tick_factor_ppm`: the hardcoded per-tick growth
factor in parts per million (the `interest_apy_bps: 6180` field is
`#[allow(dead_code)]` and never read). -/
def phi_tick_factor_ppm : Nat := 1000020

/-- One round of the `for _ in 0..ticks` loop body in
`InfinityBank::accrue_interest`: `*balance = (*balance * factor) / 1_000_000`
on `u128` values — the product wraps modulo `2 ^ 128` (release-mode
semantics; debug builds would panic there instead), the division is the
truncating `u128` division. -/
def bankStep (b : Nat) : Nat := b * phi_tick_factor_ppm % 2 ^ 128 / 1000000

/-- `InfinityBank::accrue_interest`.  With `now <= last` it returns without
touching anything.  Otherwise it applies `bankStep` to every balance once
per elapsed 8 ms tick (`((now - last) / 8).max(1)` rounds, truncating `i64`
division of the positive difference) and advances `last_tick_ms` to `now`.
Result: the new ledger paired with the new `last_tick_ms`. -/
def accrue_interest (ledger : List (String × Nat)) (now last : Int) :
    List (String × Nat) × Int :=
  if now ≤ last then
    (ledger, last)
  else
    let ticks := max ((now - last).toNat / 8) 1
    (ledger.map fun kv => (kv.1, bankStep^[ticks] kv.2), now)

/-- `InfinityBank::balance_of`: `ledger.get(label).copied().unwrap_or_default()`. -/
def balance_of (ledger : List (String × Nat)) (label : String) : Nat :=
  (AssocMap.lookup ledger label).getD 0

/-- `InfinityBank::handle_transfer`, given the already-extracted `from`,
`to` and `amount` payload fields.  Returns the response string exactly as
the Rust `format!` calls build it, paired with the post-transfer ledger. -/
def handle_transfer (ledger : List (String × Nat)) (tfrom tto : String)
    (amount : Nat) : String × List (String × Nat) :=
  if amount = 0 then
    ("bank::transfer rejected (amount=0)", ledger)
  else
    let from_balance := (AssocMap.lookup ledger tfrom).getD 0
    if from_balance < amount then
      ("bank::transfer rejected (" ++ tfrom ++ " insufficient: " ++
        toString from_balance ++ " < " ++ toString amount ++ ")", ledger)
    else
      let to_balance := (AssocMap.lookup ledger tto).getD 0
      let ledger1 := AssocMap.insert tfrom (from_balance - amount) ledger
      let ledger2 := AssocMap.insert tto (to_balance + amount) ledger1
      ("bank::transfer " ++ toString amount ++ " " ++ tfrom ++ " → " ++
        tto ++ " ok", ledger2)

end InfinityBank

/-! ## Sample fixtures used by concrete evaluations -/

/-- Sample genesis label from the spec's example scenarios. -/
def sampleGenesis : LabelId := { phone := "TEST", label := "genesis" }

/-- Sample receiver label from the spec's example scenarios. -/
def sampleFun : LabelId := { phone := "TEST", label := "fun" }

/-- A universe holding `n` units on the genesis label and nothing else. -/
def seededState (n : Nat) : UniverseState :=
  { balances := [(sampleGenesis, { amount := n })], last_snapshot := none }

/-! ## Lemmas about the association-list map -/

namespace AssocMap

theorem sumVal_nil {α β : Type} (g : β → Nat) :
    sumVal g ([] : List (α × β)) = 0 := rfl

theorem sumVal_cons {α β : Type} (g : β → Nat) (kv : α × β) (m : List (α × β)) :
    sumVal g (kv :: m) = g kv.2 + sumVal g m := by
  simp [sumVal]

theorem lookup_insert_self {α β : Type} [DecidableEq α] (l : α) (v : β) :
    ∀ m : List (α × β), lookup (insert l v m) l = some v := by
  intro m
  induction m with
  | nil => simp [insert, lookup]
  | cons kv rest ih =>
      obtain ⟨k, w⟩ := kv
      by_cases h : k = l
      · simp [insert, lookup, h]
      · simp [insert, lookup, h, ih]

theorem lookup_insert_ne {α β : Type} [DecidableEq α] {l k : α} (v : β)
    (hne : k ≠ l) : ∀ m : List (α × β), lookup (insert l v m) k = lookup m k := by
  intro m
  have hne' : l ≠ k := Ne.symm hne
  induction m with
  | nil => simp [insert, lookup, hne']
  | cons kv rest ih =>
      obtain ⟨k', w⟩ := kv
      by_cases h : k' = l
      · subst h
        simp [insert, lookup, hne']
      · simp [insert, lookup, h, ih]

theorem lookup_map {α β γ : Type} [DecidableEq α] (g : β → γ) (k : α) :
    ∀ m : List (α × β),
      lookup (m.map fun kv => (kv.1, g kv.2)) k = (lookup m k).map g := by
  intro m
  induction m with
  | nil => simp [lookup]
  | cons kv rest ih =>
      obtain ⟨k', v⟩ := kv
      by_cases h : k' = k <;> simp [lookup, h, ih]

theorem sumVal_insert {α β : Type} [DecidableEq α] (g : β → Nat) (l : α) (v : β) :
    ∀ m : List (α × β),
      sumVal g (insert l v m) + ((lookup m l).map g).getD 0 = sumVal g m + g v := by
  intro m
  induction m with
  | nil => simp [insert, lookup, sumVal]
  | cons kv rest ih =>
      obtain ⟨k, w⟩ := kv
      by_cases h : k = l
      · subst h
        have h1 : insert k v ((k, w) :: rest) = (k, v) :: rest := by simp [insert]
        have h2 : lookup ((k, w) :: rest) k = some w := by simp [lookup]
        rw [h1, h2, sumVal_cons, sumVal_cons]
        simp
        omega
      · have h1 : insert l v ((k, w) :: rest) = (k, w) :: insert l v rest := by
          simp [insert, h]
        have h2 : lookup ((k, w) :: rest) l = lookup rest l := by simp [lookup, h]
        rw [h1, h2, sumVal_cons, sumVal_cons]
        omega

theorem lookup_le_sumVal {α β : Type} [DecidableEq α] (g : β → Nat) (l : α) :
    ∀ m : List (α × β), ((lookup m l).map g).getD 0 ≤ sumVal g m := by
  intro m
  induction m with
  | nil => simp [lookup, sumVal]
  | cons kv rest ih =>
      obtain ⟨k, w⟩ := kv
      by_cases h : k = l
      · have h2 : lookup ((k, w) :: rest) l = some w := by simp [lookup, h]
        rw [h2, sumVal_cons]
        simp
      · have h2 : lookup ((k, w) :: rest) l = lookup rest l := by simp [lookup, h]
        rw [h2, sumVal_cons]
        omega

end AssocMap

/-! ## Helper lemmas about the embedded operations -/

/-- On the success path `apply_transfer` returns `Ok(())` and writes the
debited sender followed by the credited receiver, both computed from the
pre-state. -/
theorem apply_transfer_success_eq (s : UniverseState) (tx : TransferTx)
    (h0 : ¬ tx.amount = 0)
    (hlt : ¬ (s.balance_of tx.tfrom).amount < tx.amount) :
    s.apply_transfer tx =
      (Except.ok (),
        UniverseState.mk
          (AssocMap.insert tx.tto
            (Balance.mk ((s.balance_of tx.tto).amount + tx.amount))
            (AssocMap.insert tx.tfrom
              (Balance.mk ((s.balance_of tx.tfrom).amount - tx.amount))
              s.balances))
          s.last_snapshot) := by
  simp [UniverseState.apply_transfer, UniverseState.set_balance, h0, hlt]

/-- The `amount` of `balance_of` agrees with the `Nat`-valued default read
of the underlying map. -/
theorem balance_of_amount_eq_getD (s : UniverseState) (l : LabelId) :
    (s.balance_of l).amount
      = ((AssocMap.lookup s.balances l).map Balance.amount).getD 0 := by
  unfold UniverseState.balance_of
  cases h : AssocMap.lookup s.balances l <;> simp [h]

/-- A single application of the bank's per-tick balance update never
decreases a balance whose product with the factor stays below the `u128`
wrap-around (the multiplier `1_000_020 / 1_000_000` exceeds one). -/
theorem bankStep_le (x : Nat)
    (hx : x * InfinityBank.phi_tick_factor_ppm < 2 ^ 128) :
    x ≤ InfinityBank.bankStep x := by
  unfold InfinityBank.phi_tick_factor_ppm at hx
  unfold InfinityBank.bankStep InfinityBank.phi_tick_factor_ppm
  rw [Nat.mod_eq_of_lt hx]
  have hmul : x * 1000000 ≤ x * 1000020 := Nat.mul_le_mul_left x (by norm_num)
  calc x = x * 1000000 / 1000000 := by
        rw [Nat.mul_div_cancel x (by norm_num : (0 : Nat) < 1000000)]
    _ ≤ x * 1000020 / 1000000 := Nat.div_le_div_right hmul

/-- Successful transfers between two *distinct* labels preserve the sum of
all balances in the map (nearby true form of the conservation property;
self-transfers violate it, see the C4 analysis). -/
theorem apply_transfer_preserves_total_of_ne (s : UniverseState) (tx : TransferTx)
    (hne : tx.tfrom ≠ tx.tto)
    (hok : (s.apply_transfer tx).1 = Except.ok ()) :
    AssocMap.sumVal Balance.amount ((s.apply_transfer tx).2).balances
      = AssocMap.sumVal Balance.amount s.balances := by
  by_cases h0 : tx.amount = 0
  · simp [UniverseState.apply_transfer, h0] at hok
  by_cases hlt : (s.balance_of tx.tfrom).amount < tx.amount
  · simp [UniverseState.apply_transfer, h0, hlt] at hok
  rw [apply_transfer_success_eq s tx h0 hlt]
  have e1 := AssocMap.sumVal_insert Balance.amount tx.tfrom
    (Balance.mk ((s.balance_of tx.tfrom).amount - tx.amount)) s.balances
  have e2 := AssocMap.sumVal_insert Balance.amount tx.tto
    (Balance.mk ((s.balance_of tx.tto).amount + tx.amount))
    (AssocMap.insert tx.tfrom
      (Balance.mk ((s.balance_of tx.tfrom).amount - tx.amount)) s.balances)
  have e3 : AssocMap.lookup
      (AssocMap.insert tx.tfrom
        (Balance.mk ((s.balance_of tx.tfrom).amount - tx.amount)) s.balances)
      tx.tto = AssocMap.lookup s.balances tx.tto :=
    AssocMap.lookup_insert_ne _ (Ne.symm hne) s.balances
  have e4 := balance_of_amount_eq_getD s tx.tfrom
  have e5 := balance_of_amount_eq_getD s tx.tto
  have e6 := AssocMap.lookup_le_sumVal Balance.amount tx.tfrom s.balances
  rw [e3] at e2
  dsimp only at e1 e2 ⊢
  omega

/-! ## Claims -/

/-- C2: a transfer returns `InvalidAmount` iff the requested amount is zero,
returns `InsufficientBalance` iff the amount is positive and the sender's
balance is below it, and every failure leaves the whole state (hence every
balance) exactly unchanged. -/
theorem apply_transfer_error_spec (s : UniverseState) (tx : TransferTx) :
    ((s.apply_transfer tx).1 = Except.error SpecError.InvalidAmount ↔
      tx.amount = 0) ∧
    ((s.apply_transfer tx).1 = Except.error SpecError.InsufficientBalance ↔
      (tx.amount ≠ 0 ∧ (s.balance_of tx.tfrom).amount < tx.amount)) ∧
    (∀ e : SpecError, (s.apply_transfer tx).1 = Except.error e →
      (s.apply_transfer tx).2 = s) := by
  by_cases h0 : tx.amount = 0
  · simp [UniverseState.apply_transfer, h0]
  · by_cases hlt : (s.balance_of tx.tfrom).amount < tx.amount
    · simp [UniverseState.apply_transfer, h0, hlt]
    · simp [UniverseState.apply_transfer, h0, hlt]

/-- C2 witness: spec scenario 3 — transferring 500 out of a balance of 100
yields `InsufficientBalance` and the state is unchanged. -/
theorem apply_transfer_error_spec_witness :
    (UniverseState.apply_transfer
        { balances := [({ phone := "TEST", label := "genesis" }, { amount := 100 })],
          last_snapshot := none }
        { tfrom := { phone := "TEST", label := "genesis" },
          tto := { phone := "TEST", label := "fun2" }, amount := 500 }).1
      = Except.error SpecError.InsufficientBalance ∧
    (UniverseState.apply_transfer
        { balances := [({ phone := "TEST", label := "genesis" }, { amount := 100 })],
          last_snapshot := none }
        { tfrom := { phone := "TEST", label := "genesis" },
          tto := { phone := "TEST", label := "fun2" }, amount := 500 }).2
      = { balances := [({ phone := "TEST", label := "genesis" }, { amount := 100 })],
          last_snapshot := none } := by
  refine ⟨?_, ?_⟩
  · exact (apply_transfer_error_spec _ _).2.1.mpr ⟨by decide, by decide⟩
  · exact (apply_transfer_error_spec _ _).2.2 SpecError.InsufficientBalance rfl

/-- C9: `balance_of` returns the stored balance when an entry exists and
zero when none exists, for both `UniverseState::balance_of` (corelib) and
`InfinityBank::balance_of` (omega); both take the state by shared reference
and are modelled as pure functions of it, so neither can fail or mutate the
ledger. -/
theorem balance_of_spec :
    (∀ (s : UniverseState) (l : LabelId) (b : Balance),
      AssocMap.lookup s.balances l = some b → s.balance_of l = b) ∧
    (∀ (s : UniverseState) (l : LabelId),
      AssocMap.lookup s.balances l = none → s.balance_of l = { amount := 0 }) ∧
    (∀ (ledger : List (String × Nat)) (label : String) (n : Nat),
      AssocMap.lookup ledger label = some n →
        InfinityBank.balance_of ledger label = n) ∧
    (∀ (ledger : List (String × Nat)) (label : String),
      AssocMap.lookup ledger label = none →
        InfinityBank.balance_of ledger label = 0) := by
  refine ⟨?_, ?_, ?_, ?_⟩ <;> intros <;>
    simp [UniverseState.balance_of, InfinityBank.balance_of, *]

/-- C9 witness: a stored balance of 7 is returned as is; a label never seen
before reads as zero, in both implementations. -/
theorem balance_of_spec_witness :
    UniverseState.balance_of
        { balances := [({ phone := "p", label := "q" }, { amount := 7 })],
          last_snapshot := none }
        { phone := "p", label := "q" } = { amount := 7 } ∧
    UniverseState.balance_of
        { balances := [({ phone := "p", label := "q" }, { amount := 7 })],
          last_snapshot := none }
        { phone := "p", label := "r" } = { amount := 0 } ∧
    InfinityBank.balance_of [(";9132077554;fun;", 80000)] ";9132077554;fun;" = 80000 ∧
    InfinityBank.balance_of [(";9132077554;fun;", 80000)] ";never;seen;" = 0 := by
  refine ⟨?_, ?_, ?_, ?_⟩
  · exact balance_of_spec.1 _ _ _ (by decide)
  · exact balance_of_spec.2.1 _ _ (by decide)
  · exact balance_of_spec.2.2.1 _ _ _ (by decide)
  · exact balance_of_spec.2.2.2 _ _ (by decide)

/-- C10 counterexample: the per-tick update runs on `u128`, where the
multiplication by 1,000,020 wraps modulo `2 ^ 128`.  At the representable
balance `2 ^ 120` the wrapped product divided by 1,000,000 is *smaller*
than the balance, so one accrual step strictly decreases it, refuting
"yields a result greater than or equal to b" for every balance. -/
theorem bankStep_decreases_at_overflow :
    (2 : Nat) ^ 120 < 2 ^ 128 ∧
    InfinityBank.bankStep (2 ^ 120) < 2 ^ 120 :=
  ⟨by norm_num, by decide⟩

/-- C10 (amended): iterating the bank's per-tick balance update
`b ↦ (b * 1_000_020 mod 2 ^ 128) / 1_000_000` never decreases a balance as
long as the arithmetic stays below the `u128` wrap-around: whenever every
intermediate value's product with the factor is below `2 ^ 128`, the
result after any number of accrued ticks is at least `b`.  (At balances
whose product wraps, a step can decrease the balance — see the
counterexample.) -/
theorem bankStep_iterate_le (t b : Nat)
    (h : ∀ i, i < t →
      InfinityBank.bankStep^[i] b * InfinityBank.phi_tick_factor_ppm < 2 ^ 128) :
    b ≤ InfinityBank.bankStep^[t] b := by
  induction t with
  | zero => simp
  | succ n ih =>
      have hn : b ≤ InfinityBank.bankStep^[n] b :=
        ih fun i hi => h i (Nat.lt_succ_of_lt hi)
      rw [Function.iterate_succ_apply']
      exact le_trans hn (bankStep_le _ (h n (Nat.lt_succ_self n)))

/-- C10 witness: two accrual ticks on the seeded balance 5,000,000 (far
below the overflow threshold) do not decrease it. -/
theorem bankStep_iterate_le_witness :
    (5000000 : Nat) ≤ InfinityBank.bankStep^[2] 5000000 :=
  bankStep_iterate_le 2 5000000 (by decide)

/-- C1 counterexample: the claim quantifies over *every* transfer, and its
effect clause fails when sender and receiver coincide.  With a balance of
80, a self-transfer of 30 succeeds but leaves 110 — not the
decrement-by-30-then-increment-by-30 net result of 80 the claim describes
(the receiver balance is read before the sender debit is written back). -/
theorem apply_transfer_self_not_debit_credit :
    ((seededState 80).apply_transfer
        { tfrom := sampleGenesis, tto := sampleGenesis, amount := 30 }).1
      = Except.ok () ∧
    (((seededState 80).apply_transfer
        { tfrom := sampleGenesis, tto := sampleGenesis, amount := 30 }).2.balance_of
        sampleGenesis).amount = 110 ∧
    (110 : Nat) ≠ 80 - 30 + 30 :=
  ⟨rfl, rfl, by decide⟩

/-- C1 (amended): for every transfer whose sender and receiver are
*distinct*, whose amount is positive and at most the sender's balance, the
transfer succeeds, decrements the sender by the amount, increments the
receiver by the amount, and creates the receiver's entry with value equal
to the amount when none existed. -/
theorem apply_transfer_effect_distinct (s : UniverseState) (tx : TransferTx)
    (hne : tx.tfrom ≠ tx.tto) (hpos : 0 < tx.amount)
    (hbal : tx.amount ≤ (s.balance_of tx.tfrom).amount) :
    (s.apply_transfer tx).1 = Except.ok () ∧
    ((s.apply_transfer tx).2.balance_of tx.tfrom).amount
      = (s.balance_of tx.tfrom).amount - tx.amount ∧
    ((s.apply_transfer tx).2.balance_of tx.tto).amount
      = (s.balance_of tx.tto).amount + tx.amount ∧
    (AssocMap.lookup s.balances tx.tto = none →
      AssocMap.lookup ((s.apply_transfer tx).2).balances tx.tto
        = some (Balance.mk tx.amount)) := by
  have h0 : ¬ tx.amount = 0 := by omega
  have hlt : ¬ (s.balance_of tx.tfrom).amount < tx.amount := by omega
  have heq := apply_transfer_success_eq s tx h0 hlt
  have hpost : ((s.apply_transfer tx).2).balances
      = AssocMap.insert tx.tto
          (Balance.mk ((s.balance_of tx.tto).amount + tx.amount))
          (AssocMap.insert tx.tfrom
            (Balance.mk ((s.balance_of tx.tfrom).amount - tx.amount))
            s.balances) := by
    rw [heq]
  have l2 : AssocMap.lookup ((s.apply_transfer tx).2).balances tx.tto
      = some (Balance.mk ((s.balance_of tx.tto).amount + tx.amount)) := by
    rw [hpost, AssocMap.lookup_insert_self]
  have l1 : AssocMap.lookup ((s.apply_transfer tx).2).balances tx.tfrom
      = some (Balance.mk ((s.balance_of tx.tfrom).amount - tx.amount)) := by
    rw [hpost, AssocMap.lookup_insert_ne _ hne, AssocMap.lookup_insert_self]
  refine ⟨by rw [heq], ?_, ?_, ?_⟩
  · rw [balance_of_amount_eq_getD, l1]
    rfl
  · rw [balance_of_amount_eq_getD, l2]
    rfl
  · intro hnone
    have htb : (s.balance_of tx.tto).amount = 0 := by
      rw [balance_of_amount_eq_getD, hnone]
      rfl
    rw [l2, htb]
    norm_num

/-- C1 witness: spec example scenario 1 — seed genesis with 1,000,000 and
transfer 100 to a distinct label; the sender ends at 999,900, the receiver
entry is created with 100. -/
theorem apply_transfer_effect_distinct_witness :
    ((seededState 1000000).apply_transfer
        { tfrom := sampleGenesis, tto := sampleFun, amount := 100 }).1
      = Except.ok () ∧
    (((seededState 1000000).apply_transfer
        { tfrom := sampleGenesis, tto := sampleFun, amount := 100 }).2.balance_of
        sampleGenesis).amount = 999900 ∧
    (((seededState 1000000).apply_transfer
        { tfrom := sampleGenesis, tto := sampleFun, amount := 100 }).2.balance_of
        sampleFun).amount = 100 ∧
    (AssocMap.lookup (seededState 1000000).balances sampleFun = none →
      AssocMap.lookup
          (((seededState 1000000).apply_transfer
            { tfrom := sampleGenesis, tto := sampleFun, amount := 100 }).2).balances
          sampleFun
        = some (Balance.mk 100)) :=
  apply_transfer_effect_distinct (seededState 1000000)
    { tfrom := sampleGenesis, tto := sampleFun, amount := 100 }
    (by decide) (by decide) (by decide)

/-- C3: the spec requires `transfer(A, A, amount)` with a sufficient balance
to succeed and leave A's balance unchanged; in both `corelib` and the omega
bank the receiver balance is read before the sender debit is written, so a
self-transfer of 50 from a balance of 100 leaves 150 — value is minted out
of nothing. -/
theorem self_transfer_mints_value :
    ((seededState 100).apply_transfer
        { tfrom := sampleGenesis, tto := sampleGenesis, amount := 50 }).1
      = Except.ok () ∧
    (((seededState 100).apply_transfer
        { tfrom := sampleGenesis, tto := sampleGenesis, amount := 50 }).2.balance_of
        sampleGenesis).amount = 150 ∧
    InfinityBank.balance_of
        (InfinityBank.handle_transfer [(";9132077554;comet;", 100)]
          ";9132077554;comet;" ";9132077554;comet;" 50).2
        ";9132077554;comet;" = 150 :=
  ⟨rfl, rfl, rfl⟩

/-- C4: a self-transfer is a successful transfer after which the sum of all
balances in the map has grown by the transferred amount, so the claimed
conservation fails on the code: starting from a total of 100, the
self-transfer of 25 yields a total of 125. -/
theorem self_transfer_breaks_conservation :
    AssocMap.sumVal Balance.amount (seededState 100).balances = 100 ∧
    ((seededState 100).apply_transfer
        { tfrom := sampleGenesis, tto := sampleGenesis, amount := 25 }).1
      = Except.ok () ∧
    AssocMap.sumVal Balance.amount
        (((seededState 100).apply_transfer
          { tfrom := sampleGenesis, tto := sampleGenesis, amount := 25 }).2).balances
      = 125 :=
  ⟨rfl, rfl, rfl⟩


/-- C5 counterexample: two snapshots of the *identical* state (same height,
same balances) taken at wall-clock times 100 and 200 produce different
digest strings, because `encode_master_root` interpolates the timestamp
into the digest; the digest is not a pure function of `(height, balances)`. -/
theorem master_root_depends_on_time :
    ((seededState 5).fold_snapshot 100).1.master_root
      ≠ ((seededState 5).fold_snapshot 200).1.master_root := by
  decide

/-- C5 (amended): the digest produced by `fold_snapshot` is a pure function
of the previous snapshot height and the wall-clock timestamp alone — in
particular it is completely independent of the balance map, which is never
serialized (and so never sorted): any two states whose cached snapshots
carry the same height yield the identical digest at the same timestamp,
whatever their balances. -/
theorem master_root_function_of_height_time (s1 s2 : UniverseState) (t : Int)
    (h : s1.last_snapshot.map UniverseSnapshot.height
        = s2.last_snapshot.map UniverseSnapshot.height) :
    ((s1.fold_snapshot t).1).master_root = ((s2.fold_snapshot t).1).master_root := by
  cases h1 : s1.last_snapshot with
  | none =>
      cases h2 : s2.last_snapshot with
      | none => simp [UniverseState.fold_snapshot, h1, h2]
      | some q => rw [h1, h2] at h; simp at h
  | some p =>
      cases h2 : s2.last_snapshot with
      | none => rw [h1, h2] at h; simp at h
      | some q =>
          rw [h1, h2] at h
          have h3 : p.height = q.height := by simpa using h
          simp [UniverseState.fold_snapshot, h1, h2, h3]

/-- C5 amended witness: a seeded state and the empty state, both without a
prior snapshot, produce the identical digest at timestamp 7 despite their
different balance maps. -/
theorem master_root_function_of_height_time_witness :
    ((seededState 3).fold_snapshot 7).1.master_root
      = ((UniverseState.new).fold_snapshot 7).1.master_root :=
  master_root_function_of_height_time (seededState 3) UniverseState.new 7 rfl

/-- C6 counterexample: two back-to-back snapshots with no intervening
mutation and the same wall-clock timestamp return different digests — the
first has height 0, the second height 1 — so `fold_snapshot` is not
idempotent. -/
theorem fold_snapshot_not_idempotent_digest :
    ((UniverseState.new).fold_snapshot 0).1.master_root
      ≠ (((UniverseState.new).fold_snapshot 0).2.fold_snapshot 0).1.master_root := by
  decide

/-- C6 (amended): every call to `fold_snapshot` advances the snapshot
height: a second snapshot taken right after a first one (no tick or
transfer in between) carries height exactly one greater (modulo `2 ^ 64`),
so repeated snapshots are not idempotent. -/
theorem fold_snapshot_second_height (s : UniverseState) (t1 t2 : Int) :
    (((s.fold_snapshot t1).2).fold_snapshot t2).1.height
      = (((s.fold_snapshot t1).1).height + 1) % 2 ^ 64 := by
  simp [UniverseState.fold_snapshot]

/-- C7 counterexample: in `corelib` the height is advanced by
`fold_snapshot` — an operation other than a tick (corelib has no tick at
all): a fresh state's first two snapshots carry heights 0 and 1.  And at
the `u64` maximum the height wraps to 0 on the next snapshot (plain `+ 1`)
instead of saturating, so it also decreases. -/
theorem height_advanced_by_snapshot_and_wraps :
    ((UniverseState.new).fold_snapshot 0).1.height = 0 ∧
    (((UniverseState.new).fold_snapshot 0).2.fold_snapshot 0).1.height = 1 ∧
    ((UniverseState.mk [] (some (UniverseSnapshot.mk U64_MAX "" 0))).fold_snapshot
        0).1.height = 0 := by
  refine ⟨rfl, rfl, by decide⟩

/-- C7 (amended): in the `api` server, `block_height` starts at 0 and
`tick_once` — the only operation writing it — increments it by exactly 1,
saturating at the `u64` maximum and never decreasing.  In `corelib`, by
contrast, the height is advanced by `fold_snapshot` itself: the first
snapshot has height 0 and each later snapshot's height is the previous
snapshot's height plus one modulo `2 ^ 64` (plain wrapping addition, no
saturation). -/
theorem height_counter_spec :
    UniverseInner.new.block_height = 0 ∧
    (∀ u : UniverseInner, u.block_height < U64_MAX →
      u.tick_once.block_height = u.block_height + 1) ∧
    (UniverseInner.mk U64_MAX).tick_once.block_height = U64_MAX ∧
    (∀ u : UniverseInner, u.block_height ≤ U64_MAX →
      u.block_height ≤ u.tick_once.block_height) ∧
    (∀ (s : UniverseState) (t : Int),
      ((s.fold_snapshot t).1).height
        = match s.last_snapshot with
          | none => 0
          | some p => (p.height + 1) % 2 ^ 64) := by
  refine ⟨rfl, ?_, ?_, ?_, ?_⟩
  · intro u h
    simp only [UniverseInner.tick_once, U64_MAX] at h ⊢
    omega
  · simp only [UniverseInner.tick_once]
    exact congrArg UniverseInner.block_height
      (congrArg UniverseInner.mk (Nat.min_eq_right (Nat.le_succ _)))
  · intro u h
    simp only [UniverseInner.tick_once, U64_MAX] at h ⊢
    omega
  · intro s t
    cases h : s.last_snapshot <;> simp [UniverseState.fold_snapshot, h]

/-- C7 witness: a height of 5 ticks to 6, and ticking never decreases the
height. -/
theorem height_counter_spec_witness :
    (UniverseInner.mk 5).tick_once.block_height = 5 + 1 ∧
    (UniverseInner.mk 7).block_height ≤ (UniverseInner.mk 7).tick_once.block_height :=
  ⟨height_counter_spec.2.1 (UniverseInner.mk 5) (by decide),
   height_counter_spec.2.2.2.1 (UniverseInner.mk 7) (by decide)⟩

/-- C8 counterexample: the claim says each resulting balance is rounded to
the *nearest* integer unit; the code truncates.  One accrued tick on a
balance of 37,500 multiplies by 1.000020, i.e. exactly 37,500.75: the code
leaves 37,500 while rounding to the nearest unit would give 37,501. -/
theorem accrue_interest_truncates_not_nearest :
    AssocMap.lookup (InfinityBank.accrue_interest [("x", 37500)] 8 0).1 "x"
      = some 37500 ∧
    roundNearestHalfUp (37500 * InfinityBank.phi_tick_factor_ppm) 1000000 = 37501 ∧
    (37500 : Nat) ≠ 37501 :=
  ⟨by decide, by decide, by decide⟩

/-- C8 (amended): `accrue_interest` never fails; a call with `now ≤ last`
changes nothing at all, and a call with `now > last` advances
`last_tick_ms` to `now` and replaces every balance `b` in the map by
`bankStep` — the `u128` multiplication by the hardcoded factor 1,000,020
ppm (wrapping modulo `2 ^ 128`) followed by *truncating* division —
iterated once per elapsed 8 ms tick (at least once); the configured annual
rate is dead code and no rounding to nearest occurs. -/
theorem accrue_interest_spec (ledger : List (String × Nat)) (now last : Int) :
    (now ≤ last → InfinityBank.accrue_interest ledger now last = (ledger, last)) ∧
    (last < now →
      (InfinityBank.accrue_interest ledger now last).2 = now ∧
      ∀ label : String,
        AssocMap.lookup (InfinityBank.accrue_interest ledger now last).1 label
          = (AssocMap.lookup ledger label).map
              (InfinityBank.bankStep^[max ((now - last).toNat / 8) 1])) := by
  constructor
  · intro h
    simp [InfinityBank.accrue_interest, h]
  · intro h
    have h2 : ¬ now ≤ last := not_le.mpr h
    refine ⟨?_, ?_⟩
    · simp [InfinityBank.accrue_interest, h2]
    · intro label
      simp only [InfinityBank.accrue_interest, if_neg h2]
      exact AssocMap.lookup_map _ label ledger

/-- C8 witness: a call at `now = last` is a no-op, and a call 8 ms after
the previous tick applies exactly one `bankStep` round to each balance. -/
theorem accrue_interest_spec_witness :
    InfinityBank.accrue_interest [("x", 100)] 5 5 = ([("x", 100)], 5) ∧
    (InfinityBank.accrue_interest [("x", 37500)] 8 0).2 = 8 ∧
    AssocMap.lookup (InfinityBank.accrue_interest [("x", 37500)] 8 0).1 "x"
      = (AssocMap.lookup [("x", 37500)] "x").map
          (InfinityBank.bankStep^[max (((8 : Int) - 0).toNat / 8) 1]) :=
  ⟨(accrue_interest_spec [("x", 100)] 5 5).1 (le_refl 5),
   ((accrue_interest_spec [("x", 37500)] 8 0).2 (by norm_num)).1,
   ((accrue_interest_spec [("x", 37500)] 8 0).2 (by norm_num)).2 "x"⟩

end Dlog
